import Mathlib

/-!
Shallow embedding of `dcs_core/core/validation/base.py`: the identity
deriver, threshold engine, and the single-source / delta validation
lifecycles.  Python numbers are modelled as `Int`, Python exceptions as
`Except String`, the abstract metric hooks as `Except String Int` values
supplied by the caller, and the logger / traceback channel as a returned
list of diagnostic strings.  Evaluation is embedded with explicit state
passing (the returned `post` field is the instance after the call) so
that frame properties are statable.
-/

/-- Modelled from the spec: the structured (tree-shaped) filter data that
Python's `json.loads` produces for the search-style dialect.  (The `json`
module is external; this models the JSON documents relevant here.) -/
inductive Json where
  | null
  | bool (b : Bool)
  | num (n : Int)
  | str (s : String)
  | arr (elems : List Json)
  | obj (members : List (String × Json))

/-- Drop leading JSON whitespace. -/
def skipWs : List Char → List Char
  | c :: cs =>
    if c = ' ' ∨ c = '\n' ∨ c = '\t' ∨ c = '\r' then skipWs cs else c :: cs
  | [] => []

/-- Split off a (possibly empty) run of leading decimal digits. -/
def takeDigits : List Char → List Char × List Char
  | c :: cs =>
    if c.isDigit then
      let p := takeDigits cs
      (c :: p.1, p.2)
    else ([], c :: cs)
  | [] => ([], [])

/-- Value of a digit run as a nonnegative integer. -/
def digitsToInt (ds : List Char) : Int :=
  ds.foldl (fun a c => a * 10 + (Int.ofNat (c.toNat - 48))) 0

/-- Body of a JSON string after the opening quote, up to the closing
quote.  Escapes are outside the modelled subset and rejected. -/
def parseStringBody : List Char → Except String (List Char × List Char)
  | [] => .error "Unterminated string"
  | c :: cs =>
    if c = '"' then .ok ([], cs)
    else if c = '\\' then .error "Unsupported escape"
    else do
      let p ← parseStringBody cs
      .ok (c :: p.1, p.2)

mutual

/-- Modelled from the spec: recursive-descent parse of one JSON value
(fuel-indexed), as Python's `json.loads` would read it. -/
def parseValue : Nat → List Char → Except String (Json × List Char)
  | 0, _ => .error "Fuel exhausted"
  | fuel + 1, s =>
    match skipWs s with
    | [] => .error "Expecting value"
    | c :: cs =>
      if c = 'n' then
        match cs with
        | 'u' :: 'l' :: 'l' :: r => .ok (.null, r)
        | _ => .error "Expecting value"
      else if c = 't' then
        match cs with
        | 'r' :: 'u' :: 'e' :: r => .ok (.bool true, r)
        | _ => .error "Expecting value"
      else if c = 'f' then
        match cs with
        | 'a' :: 'l' :: 's' :: 'e' :: r => .ok (.bool false, r)
        | _ => .error "Expecting value"
      else if c = '"' then do
        let p ← parseStringBody cs
        .ok (.str (String.mk p.1), p.2)
      else if c = '[' then
        match skipWs cs with
        | ']' :: r => .ok (.arr [], r)
        | rest => parseArrayItems fuel rest []
      else if c = '\x7b' then
        match skipWs cs with
        | '\x7d' :: r => .ok (.obj [], r)
        | rest => parseObjItems fuel rest []
      else if c = '-' then
        match takeDigits cs with
        | ([], _) => .error "Expecting value"
        | (ds, r) => .ok (.num (-(digitsToInt ds)), r)
      else if c.isDigit then
        match takeDigits (c :: cs) with
        | (ds, r) => .ok (.num (digitsToInt ds), r)
      else .error "Expecting value"

/-- Comma-separated JSON array items after the opening bracket. -/
def parseArrayItems : Nat → List Char → List Json → Except String (Json × List Char)
  | 0, _, _ => .error "Fuel exhausted"
  | fuel + 1, s, acc => do
    let p ← parseValue fuel s
    match skipWs p.2 with
    | ',' :: r => parseArrayItems fuel r (acc ++ [p.1])
    | ']' :: r => .ok (.arr (acc ++ [p.1]), r)
    | _ => .error "Expecting comma or close bracket"

/-- Comma-separated JSON object members after the opening brace. -/
def parseObjItems : Nat → List Char → List (String × Json) → Except String (Json × List Char)
  | 0, _, _ => .error "Fuel exhausted"
  | fuel + 1, s, acc =>
    match skipWs s with
    | '"' :: cs => do
      let k ← parseStringBody cs
      match skipWs k.2 with
      | ':' :: r => do
        let p ← parseValue fuel r
        match skipWs p.2 with
        | ',' :: r2 => parseObjItems fuel r2 (acc ++ [(String.mk k.1, p.1)])
        | '\x7d' :: r2 => .ok (.obj (acc ++ [(String.mk k.1, p.1)]), r2)
        | _ => .error "Expecting comma or close brace"
      | _ => .error "Expecting colon"
    | _ => .error "Expecting property name"

end

/-- Modelled from the spec: Python's `json.loads` — parse a whole document
into tree-shaped data, failing on input that is not valid JSON. -/
def json_loads (s : String) : Except String Json :=
  match parseValue (s.length + 1) s.data with
  | .ok (j, rest) => if skipWs rest = [] then .ok j else .error "Extra data"
  | .error e => .error e

/-- Modelled from the spec: `DataSourceLanguageSupport`, the dialect
enumeration external to this core — a SQL-style dialect, a search-style
dialect (`DSL_ES`), and an unrecognized/other dialect. -/
inductive DataSourceLanguageSupport where
  | SQL
  | DSL_ES
  | DSL_OTHER
deriving DecidableEq, Repr

/-- Modelled from the spec: `ConditionType`, naming the five threshold
bounds.  In the source it is a string enumeration compared against the
threshold's attribute names. -/
inductive ConditionType where
  | GTE
  | LTE
  | GT
  | LT
  | EQ
deriving DecidableEq, Repr

/-- Modelled from the spec: a validation function tag, identified by its
string `value` (the source's `ValidationFunction` enum member). -/
structure ValidationFunction where
  value : String
deriving DecidableEq, Repr

/-- Modelled from the spec: `Threshold`, a set of five optional numeric
bounds; its attribute-dictionary iteration order is the fixed order
GTE, LTE, GT, LT, EQ. -/
structure Threshold where
  gte : Option Int
  lte : Option Int
  gt : Option Int
  lt : Option Int
  eq : Option Int
deriving DecidableEq, Repr

/-- Modelled from the spec: `ValidationConfig`, consumed read-only —
query, optional threshold, optional `where` filter expression
(`whereExpr` here, `where` being reserved in Lean), optional values
list, optional regex, and the validation-function tag accessor. -/
structure ValidationConfig where
  query : Option String
  threshold : Option Threshold
  whereExpr : Option String
  values : Option (List String)
  regex : Option String
  get_validation_function : ValidationFunction

/-- Modelled from the spec: a data source handle exposing a stable name
and its declared dialect. -/
structure DataSource where
  data_source_name : String
  language_support : DataSourceLanguageSupport

/-- The dialect-interpreted `where` filter stored on an instance: parsed
tree data under the search dialect, the opaque string under SQL. -/
inductive WhereFilter where
  | dsl (j : Json)
  | sql (s : String)

namespace ValidationIdentity

/-- Embeds `ValidationIdentity.generate_identity`: append, in order,
`data_source_name` (when not None, Python truthiness is NOT applied),
`dataset_name`, `field_name` (when truthy, i.e. non-None and non-empty),
the function tag (an enum member, always truthy), and `validation_name`
(when non-empty); join with a dot. -/
def generate_identity (validation_function : ValidationFunction)
    (validation_name : String) (data_source_name : Option String)
    (dataset_name : Option String) (field_name : Option String) : String :=
  let identifiers : List String :=
    (match data_source_name with
      | some s => [s]
      | none => [])
    ++ (match dataset_name with
      | some s => if s = "" then [] else [s]
      | none => [])
    ++ (match field_name with
      | some s => if s = "" then [] else [s]
      | none => [])
    ++ [validation_function.value]
    ++ (if validation_name = "" then [] else [validation_name])
  String.intercalate "." identifiers

end ValidationIdentity

/-- Embeds the `Validation` instance state captured by `__init__`. -/
structure Validation where
  name : String
  validation_config : ValidationConfig
  data_source : DataSource
  dataset_name : String
  field_name : Option String
  query : Option String
  threshold : Option Threshold
  where_filter : Option WhereFilter
  values : Option (List String)
  regex_pattern : Option String

/-- Embeds `Validation.__init__`: copy the configuration fields, then
interpret `where`/`values` by dialect — parse `where` as JSON under
`DSL_ES` (a parse failure propagates out of the constructor), keep it
opaque under `SQL`, leave both unset otherwise.  Python truthiness
guards the presence checks (`None` and empty are skipped). -/
def Validation.init (name : String) (validation_config : ValidationConfig)
    (data_source : DataSource) (dataset_name : String)
    (field_name : Option String) : Except String Validation :=
  let whereStep : Except String (Option WhereFilter) :=
    match validation_config.whereExpr with
    | some w =>
      if w = "" then .ok none
      else
        match data_source.language_support with
        | .DSL_ES =>
          match json_loads w with
          | .ok j => .ok (some (WhereFilter.dsl j))
          | .error e => .error e
        | .SQL => .ok (some (WhereFilter.sql w))
        | .DSL_OTHER => .ok none
    | none => .ok none
  match whereStep with
  | .error e => .error e
  | .ok where_filter =>
  let values : Option (List String) :=
    match validation_config.values with
    | some vs =>
      if vs = [] then none
      else
        match data_source.language_support with
        | .SQL => some vs
        | _ => none
    | none => none
  .ok
    { name := name
      validation_config := validation_config
      data_source := data_source
      dataset_name := dataset_name
      field_name := field_name
      query := validation_config.query
      threshold := validation_config.threshold
      where_filter := where_filter
      values := values
      regex_pattern := validation_config.regex }

/-- Embeds `Validation.get_validation_identity`: delegate to the identity
deriver with the configuration's function tag, this instance's name, and
the captured data source / dataset / field names. -/
def Validation.get_validation_identity (v : Validation) : String :=
  ValidationIdentity.generate_identity
    v.validation_config.get_validation_function v.name
    (some v.data_source.data_source_name) (some v.dataset_name) v.field_name

/-- The failure condition and reason the threshold loop body checks for
one operator: the source's `if ConditionType.X == operator` dispatch with
its inner comparison and message. -/
def checkCondition (op : ConditionType) (value m : Int) : Option String :=
  match op with
  | .GTE =>
    if m < value then some ("Less than threshold value of " ++ toString value)
    else none
  | .LTE =>
    if m > value then some ("Greater than threshold value of " ++ toString value)
    else none
  | .GT =>
    if m ≤ value then
      some ("Less than or equal to threshold value of " ++ toString value)
    else none
  | .LT =>
    if m ≥ value then
      some ("Greater than or equal to threshold value of " ++ toString value)
    else none
  | .EQ =>
    if m ≠ value then some ("Not equal to the value of " ++ toString value)
    else none

/-- The source's `for operator, value in threshold.__dict__.items()` loop:
skip unset bounds, return `(False, reason)` at the first failing bound,
`(True, None)` when the items are exhausted. -/
def checkItems : List (ConditionType × Option Int) → Int → Bool × Option String
  | [], _ => (true, none)
  | (op, bound) :: rest, m =>
    match bound with
    | none => checkItems rest m
    | some value =>
      match checkCondition op value m with
      | some reason => (false, some reason)
      | none => checkItems rest m

/-- Embeds `Validation._validate_threshold` (the method reads
`self.threshold`, which its caller guards to be set; here the threshold
is taken directly): iterate the bounds in attribute order. -/
def validate_threshold (t : Threshold) (m : Int) : Bool × Option String :=
  checkItems
    [(ConditionType.GTE, t.gte), (ConditionType.LTE, t.lte),
     (ConditionType.GT, t.gt), (ConditionType.LT, t.lt),
     (ConditionType.EQ, t.eq)] m

/-- Embeds `ValidationInfo` (modelled from the spec for the fields the
constructor call does not show): the result record, with `is_valid` and
`reason` unset unless a threshold was configured. -/
structure ValidationInfo where
  name : String
  identity : String
  data_source_name : String
  dataset : String
  validation_function : ValidationFunction
  field : Option String
  value : Int
  timestamp : Nat
  tags : List (String × String)
  is_valid : Option Bool
  reason : Option String

/-- Outcome of one `get_validation_info` call: the returned result (or
the contained-failure sentinel `none`), the diagnostics emitted to the
traceback/log channel, and the instance state after the call. -/
structure EvalOutcome where
  result : Option ValidationInfo
  diagnostics : List String
  post : Validation

/-- The stack-trace line `traceback.print_exc` writes to stdout for a
contained failure, modelled as carrying the failure message. -/
def traceback_entry (e : String) : String :=
  "Traceback (most recent call last): " ++ e

/-- Embeds `Validation.get_validation_info`, generalized over the
threshold check used (instantiated with `validate_threshold` below): on
hook success assemble the result and attach the verdict only when a
threshold is set; on any raised failure print the traceback, log the
error, and return the `None` sentinel.  No instance field is assigned,
so the post state is the input state. -/
def Validation.get_validation_info_core (v : Validation)
    (check : Threshold → Int → Bool × Option String)
    (metric_hook : Except String Int) (now : Nat) : EvalOutcome :=
  match metric_hook with
  | .error e =>
    { result := none
      diagnostics :=
        [traceback_entry e,
         "Failed to generate metric " ++ v.name ++ ": " ++ e]
      post := v }
  | .ok metric_value =>
    let tags := [("name", v.name)]
    let value : ValidationInfo :=
      { name := v.name
        identity := v.get_validation_identity
        data_source_name := v.data_source.data_source_name
        dataset := v.dataset_name
        validation_function := v.validation_config.get_validation_function
        field := v.field_name
        value := metric_value
        timestamp := now
        tags := tags
        is_valid := none
        reason := none }
    let value :=
      match v.threshold with
      | some t =>
        let r := check t metric_value
        { value with is_valid := some r.1, reason := r.2 }
      | none => value
    { result := some value, diagnostics := [], post := v }

/-- Embeds `Validation.get_validation_info` proper. -/
def Validation.get_validation_info (v : Validation)
    (metric_hook : Except String Int) (now : Nat) : EvalOutcome :=
  v.get_validation_info_core validate_threshold metric_hook now

/-- Embeds the `DeltaValidation` instance state: the inherited state plus
the reference data source, dataset and optional field names. -/
structure DeltaValidation extends Validation where
  reference_data_source : DataSource
  reference_dataset_name : String
  reference_field_name : Option String

/-- Embeds `DeltaValidation.__init__`: run the inherited constructor,
then record the reference handles. -/
def DeltaValidation.init (name : String) (validation_config : ValidationConfig)
    (data_source : DataSource) (dataset_name : String)
    (reference_data_source : DataSource) (reference_dataset_name : String)
    (reference_field_name : Option String) : Except String DeltaValidation := do
  let base ← Validation.init name validation_config data_source dataset_name none
  .ok
    { toValidation := base
      reference_data_source := reference_data_source
      reference_dataset_name := reference_dataset_name
      reference_field_name := reference_field_name }

/-- Embeds `DeltaValidationInfo` (modelled from the spec for the fields
the constructor call does not show): the comparative result record. -/
structure DeltaValidationInfo where
  name : String
  identity : String
  data_source_name : String
  dataset : String
  validation_function : ValidationFunction
  field : Option String
  value : Int
  source_value : Int
  reference_value : Int
  reference_datasource_name : String
  reference_dataset : String
  timestamp : Nat
  tags : List (String × String)
  is_valid : Option Bool
  reason : Option String

/-- Outcome of one `DeltaValidation.get_validation_info` call. -/
structure DeltaEvalOutcome where
  result : Option DeltaValidationInfo
  diagnostics : List String
  post : DeltaValidation

/-- Embeds `DeltaValidation.get_validation_info`: compute both metrics
(the primary hook runs first; if it raises the reference hook is never
consulted), take the absolute difference as the reported value, judge a
configured threshold against that difference, and contain any raised
failure as in the base class. -/
def DeltaValidation.get_validation_info (dv : DeltaValidation)
    (metric_hook : Except String Int) (reference_hook : Except String Int)
    (now : Nat) : DeltaEvalOutcome :=
  match metric_hook with
  | .error e =>
    { result := none
      diagnostics :=
        [traceback_entry e,
         "Failed to generate metric " ++ dv.name ++ ": " ++ e]
      post := dv }
  | .ok metric_value =>
    match reference_hook with
    | .error e =>
      { result := none
        diagnostics :=
          [traceback_entry e,
           "Failed to generate metric " ++ dv.name ++ ": " ++ e]
        post := dv }
    | .ok reference_metric_value =>
      let delta_value := |metric_value - reference_metric_value|
      let tags := [("name", dv.name)]
      let value : DeltaValidationInfo :=
        { name := dv.name
          identity := dv.toValidation.get_validation_identity
          data_source_name := dv.data_source.data_source_name
          dataset := dv.dataset_name
          validation_function := dv.validation_config.get_validation_function
          field := dv.field_name
          value := delta_value
          source_value := metric_value
          reference_value := reference_metric_value
          reference_datasource_name := dv.reference_data_source.data_source_name
          reference_dataset := dv.reference_dataset_name
          timestamp := now
          tags := tags
          is_valid := none
          reason := none }
      let value :=
        match dv.threshold with
        | some t =>
          let r := validate_threshold t delta_value
          { value with is_valid := some r.1, reason := r.2 }
        | none => value
      { result := some value, diagnostics := [], post := dv }

/-! Sample instances used by the witness theorems. -/

/-- A sample validation-function tag. -/
def fnCount : ValidationFunction := ⟨"count"⟩

/-- A sample SQL-dialect data source. -/
def dsSql : DataSource := ⟨"warehouse", .SQL⟩

/-- A sample search-dialect data source. -/
def dsEs : DataSource := ⟨"es_store", .DSL_ES⟩

/-- A sample unrecognized-dialect data source. -/
def dsOther : DataSource := ⟨"other_store", .DSL_OTHER⟩

/-- A sample configuration with no threshold, filter or values. -/
def cfgPlain : ValidationConfig := ⟨none, none, none, none, none, fnCount⟩

/-- A sample threshold demanding equality with 15. -/
def thEq15 : Threshold := ⟨none, none, none, none, some 15⟩

/-- The sample threshold of the spec's tie-break example. -/
def thBand : Threshold := ⟨some 10, some 20, none, none, none⟩

/-- A sample configuration whose threshold is `thEq15`. -/
def cfgEq15 : ValidationConfig := ⟨none, some thEq15, none, none, none, fnCount⟩

/-- A sample configuration carrying `where` and `values`. -/
def cfgWhere : ValidationConfig :=
  ⟨none, none, some "col > 1", some ["a"], none, fnCount⟩

/-- A sample configuration whose `where` string is not valid JSON. -/
def cfgBadWhere : ValidationConfig := ⟨none, none, some "\x7b", none, none, fnCount⟩

/-- A sample constructed validation unit with no threshold. -/
def sampleValidation : Validation :=
  { name := "check1"
    validation_config := cfgPlain
    data_source := dsSql
    dataset_name := "orders"
    field_name := none
    query := none
    threshold := none
    where_filter := none
    values := none
    regex_pattern := none }

/-- A sample constructed delta validation unit with threshold `thEq15`. -/
def sampleDeltaT : DeltaValidation :=
  { toValidation :=
      { sampleValidation with validation_config := cfgEq15, threshold := some thEq15 }
    reference_data_source := dsOther
    reference_dataset_name := "orders_ref"
    reference_field_name := none }

/-- C1: for both `Validation` and `DeltaValidation`, a raised failure in
a metric hook is contained: `get_validation_info` returns the `None`
sentinel (never a result object, in particular never a partial one
carrying only the source metric), and records the stack trace and error
message on the diagnostic channel. -/
theorem failure_containment_returns_sentinel :
    ∀ (v : Validation) (dv : DeltaValidation) (e : String)
      (rh : Except String Int) (m : Int) (now : Nat),
      (v.get_validation_info (.error e) now).result = none
    ∧ (v.get_validation_info (.error e) now).diagnostics =
        [traceback_entry e, "Failed to generate metric " ++ v.name ++ ": " ++ e]
    ∧ (dv.get_validation_info (.error e) rh now).result = none
    ∧ (dv.get_validation_info (.error e) rh now).diagnostics =
        [traceback_entry e, "Failed to generate metric " ++ dv.name ++ ": " ++ e]
    ∧ (dv.get_validation_info (.ok m) (.error e) now).result = none
    ∧ (dv.get_validation_info (.ok m) (.error e) now).diagnostics =
        [traceback_entry e, "Failed to generate metric " ++ dv.name ++ ": " ++ e] :=
  fun _ _ _ _ _ _ => ⟨rfl, rfl, rfl, rfl, rfl, rfl⟩

/-- C3: a delta unit whose hooks return `m` and `r` reports
`value = |m - r|`, `source_value = m`, `reference_value = r`, and judges
a configured threshold against `|m - r|`. -/
theorem delta_reports_absolute_difference :
    ∀ (dv : DeltaValidation) (m r : Int) (now : Nat),
      ((dv.get_validation_info (.ok m) (.ok r) now).result.map fun i => i.value)
        = some |m - r|
    ∧ ((dv.get_validation_info (.ok m) (.ok r) now).result.map fun i => i.source_value)
        = some m
    ∧ ((dv.get_validation_info (.ok m) (.ok r) now).result.map fun i => i.reference_value)
        = some r
    ∧ (∀ t, dv.threshold = some t →
        ((dv.get_validation_info (.ok m) (.ok r) now).result.map fun i => i.is_valid)
          = some (some (validate_threshold t |m - r|).1)
      ∧ ((dv.get_validation_info (.ok m) (.ok r) now).result.map fun i => i.reason)
          = some (validate_threshold t |m - r|).2) := by
  intro dv m r now
  refine ⟨?_, ?_, ?_, ?_⟩
  · rcases h : dv.threshold with _ | t <;>
      simp [DeltaValidation.get_validation_info, h]
  · rcases h : dv.threshold with _ | t <;>
      simp [DeltaValidation.get_validation_info, h]
  · rcases h : dv.threshold with _ | t <;>
      simp [DeltaValidation.get_validation_info, h]
  · intro t ht
    constructor <;> simp [DeltaValidation.get_validation_info, ht]

/-- Witness for C3 at the spec's example: source metric 100 and
reference metric 85 give value 15, and the `EQ 15` threshold judged
against 15 (not 100 or 85) passes. -/
theorem delta_reports_absolute_difference_app :
    ((sampleDeltaT.get_validation_info (.ok 100) (.ok 85) 0).result.map fun i => i.value)
      = some 15
  ∧ ((sampleDeltaT.get_validation_info (.ok 100) (.ok 85) 0).result.map fun i => i.source_value)
      = some 100
  ∧ ((sampleDeltaT.get_validation_info (.ok 100) (.ok 85) 0).result.map fun i => i.is_valid)
      = some (some true) := by
  have h := delta_reports_absolute_difference sampleDeltaT 100 85 0
  have h4 := h.2.2.2 thEq15 rfl
  refine ⟨?_, h.2.1, ?_⟩
  · rw [h.1]; decide
  · rw [h4.1]; decide

/-- C5: with no threshold configured, evaluation never consults the
threshold check (the outcome is the same for every possible check
function) and the returned result carries the metric value with
`is_valid` and `reason` unset. -/
theorem no_threshold_passthrough :
    ∀ (v : Validation) (ck ck2 : Threshold → Int → Bool × Option String)
      (m : Int) (now : Nat), v.threshold = none →
      v.get_validation_info_core ck (.ok m) now
        = v.get_validation_info_core ck2 (.ok m) now
    ∧ ((v.get_validation_info (.ok m) now).result.map fun i => i.is_valid)
        = some none
    ∧ ((v.get_validation_info (.ok m) now).result.map fun i => i.reason)
        = some none
    ∧ ((v.get_validation_info (.ok m) now).result.map fun i => i.value)
        = some m := by
  intro v ck ck2 m now h
  refine ⟨?_, ?_, ?_, ?_⟩ <;>
    simp [Validation.get_validation_info, Validation.get_validation_info_core, h]

/-- Witness for C5 on a concrete threshold-free unit. -/
theorem no_threshold_passthrough_app :
    ((sampleValidation.get_validation_info (.ok 7) 0).result.map fun i => i.is_valid)
      = some none
  ∧ ((sampleValidation.get_validation_info (.ok 7) 0).result.map fun i => i.reason)
      = some none
  ∧ ((sampleValidation.get_validation_info (.ok 7) 0).result.map fun i => i.value)
      = some 7 := by
  have h := no_threshold_passthrough sampleValidation
    validate_threshold validate_threshold 7 0 rfl
  exact ⟨h.2.1, h.2.2.1, h.2.2.2⟩

/-- C7: identity strings are deterministic — the deriver is a pure
function of its argument tuple, `get_validation_identity` of a given
instance is always the same string, and an intervening evaluation (of
any outcome) does not change the instance's identity. -/
theorem identity_deterministic :
    (∀ (fn : ValidationFunction) (nm : String) (ds dsn fld : Option String),
      ValidationIdentity.generate_identity fn nm ds dsn fld
        = ValidationIdentity.generate_identity fn nm ds dsn fld)
  ∧ (∀ v : Validation, v.get_validation_identity = v.get_validation_identity)
  ∧ (∀ (v : Validation) (hook : Except String Int) (now : Nat),
      ((v.get_validation_info hook now).post).get_validation_identity
        = v.get_validation_identity) :=
  ⟨fun _ _ _ _ _ => rfl, fun _ => rfl,
   fun v hook now => by cases hook <;> rfl⟩

/-- C8: evaluation mutates nothing — for both unit kinds and every hook
outcome, the instance after `get_validation_info` equals the instance
before; results exist only as return values. -/
theorem evaluation_preserves_instance :
    (∀ (v : Validation) (hook : Except String Int) (now : Nat),
      (v.get_validation_info hook now).post = v)
  ∧ (∀ (dv : DeltaValidation) (mh rh : Except String Int) (now : Nat),
      (dv.get_validation_info mh rh now).post = dv) := by
  constructor
  · intro v hook now
    cases hook <;> rcases h : v.threshold with _ | t <;>
      simp [Validation.get_validation_info, Validation.get_validation_info_core, h]
  · intro dv mh rh now
    cases mh <;> cases rh <;> rcases h : dv.threshold with _ | t <;>
      simp [DeltaValidation.get_validation_info, h]

/-- C10: the `reference_field_name` accepted by the delta constructor
never influences an observable output — changing it alone changes
neither the identity string nor the result/diagnostics of any
evaluation. -/
theorem reference_field_name_unobservable :
    ∀ (dv : DeltaValidation) (f : Option String),
      ({ dv with reference_field_name := f } : DeltaValidation).toValidation.get_validation_identity
        = dv.toValidation.get_validation_identity
    ∧ (∀ (mh rh : Except String Int) (now : Nat),
        (({ dv with reference_field_name := f } : DeltaValidation).get_validation_info mh rh now).result
          = (dv.get_validation_info mh rh now).result
      ∧ (({ dv with reference_field_name := f } : DeltaValidation).get_validation_info mh rh now).diagnostics
          = (dv.get_validation_info mh rh now).diagnostics) := by
  intro dv f
  obtain ⟨base, rds, rdn, rfn⟩ := dv
  refine ⟨rfl, ?_⟩
  intro mh rh now
  cases mh <;> cases rh <;> exact ⟨rfl, rfl⟩

/-- Spec-side predicate: the GTE bound is set and fails on `m`. -/
def gteFailB (t : Threshold) (m : Int) : Bool :=
  match t.gte with
  | some v => decide (m < v)
  | none => false

/-- Spec-side predicate: the LTE bound is set and fails on `m`. -/
def lteFailB (t : Threshold) (m : Int) : Bool :=
  match t.lte with
  | some v => decide (m > v)
  | none => false

/-- Spec-side predicate: the GT bound is set and fails on `m`. -/
def gtFailB (t : Threshold) (m : Int) : Bool :=
  match t.gt with
  | some v => decide (m ≤ v)
  | none => false

/-- Spec-side predicate: the LT bound is set and fails on `m`. -/
def ltFailB (t : Threshold) (m : Int) : Bool :=
  match t.lt with
  | some v => decide (m ≥ v)
  | none => false

/-- Spec-side predicate: the EQ bound is set and fails on `m`. -/
def eqFailB (t : Threshold) (m : Int) : Bool :=
  match t.eq with
  | some v => decide (m ≠ v)
  | none => false

/-- A bound that is unset or does not fail is stepped over by the loop. -/
theorem checkItems_step_none (op : ConditionType) (bound : Option Int)
    (rest : List (ConditionType × Option Int)) (m : Int)
    (h : ∀ v, bound = some v → checkCondition op v m = none) :
    checkItems ((op, bound) :: rest) m = checkItems rest m := by
  cases bound with
  | none => rfl
  | some v => simp [checkItems, h v rfl]

/-- A set bound whose condition fails short-circuits the loop. -/
theorem checkItems_step_fail (op : ConditionType) (v : Int)
    (rest : List (ConditionType × Option Int)) (m : Int) (r : String)
    (h : checkCondition op v m = some r) :
    checkItems ((op, v) :: rest) m = (false, some r) := by
  simp [checkItems, h]

/-- A non-failing GTE bound contributes no failure to the loop. -/
theorem gte_cond_none (t : Threshold) (m : Int) (h : gteFailB t m = false) :
    ∀ v, t.gte = some v → checkCondition ConditionType.GTE v m = none := by
  intro v hv
  rw [gteFailB, hv] at h
  simp at h
  simp [checkCondition, h]

/-- A non-failing LTE bound contributes no failure to the loop. -/
theorem lte_cond_none (t : Threshold) (m : Int) (h : lteFailB t m = false) :
    ∀ v, t.lte = some v → checkCondition ConditionType.LTE v m = none := by
  intro v hv
  rw [lteFailB, hv] at h
  simp at h
  simp [checkCondition, h]

/-- A non-failing GT bound contributes no failure to the loop. -/
theorem gt_cond_none (t : Threshold) (m : Int) (h : gtFailB t m = false) :
    ∀ v, t.gt = some v → checkCondition ConditionType.GT v m = none := by
  intro v hv
  rw [gtFailB, hv] at h
  simp at h
  simp [checkCondition, h]

/-- A non-failing LT bound contributes no failure to the loop. -/
theorem lt_cond_none (t : Threshold) (m : Int) (h : ltFailB t m = false) :
    ∀ v, t.lt = some v → checkCondition ConditionType.LT v m = none := by
  intro v hv
  rw [ltFailB, hv] at h
  simp at h
  simp [checkCondition, h]

/-- A non-failing EQ bound contributes no failure to the loop. -/
theorem eq_cond_none (t : Threshold) (m : Int) (h : eqFailB t m = false) :
    ∀ v, t.eq = some v → checkCondition ConditionType.EQ v m = none := by
  intro v hv
  rw [eqFailB, hv] at h
  simp at h
  simp [checkCondition, h]

/-- C2: `_validate_threshold` checks the bounds in the fixed order GTE,
LTE, GT, LT, EQ; each set bound fails exactly under its condition with
its named reason, the first failing bound in that order determines the
returned pair, and when no set bound fails the result is `(true, none)`
(so a metric equal to a GTE or LTE bound passes that bound). -/
theorem validate_threshold_order_semantics :
    ∀ (t : Threshold) (m : Int),
      (∀ v, t.gte = some v → m < v →
        validate_threshold t m
          = (false, some ("Less than threshold value of " ++ toString v)))
    ∧ (∀ v, t.lte = some v → gteFailB t m = false → m > v →
        validate_threshold t m
          = (false, some ("Greater than threshold value of " ++ toString v)))
    ∧ (∀ v, t.gt = some v → gteFailB t m = false → lteFailB t m = false → m ≤ v →
        validate_threshold t m
          = (false, some ("Less than or equal to threshold value of " ++ toString v)))
    ∧ (∀ v, t.lt = some v → gteFailB t m = false → lteFailB t m = false →
        gtFailB t m = false → m ≥ v →
        validate_threshold t m
          = (false, some ("Greater than or equal to threshold value of " ++ toString v)))
    ∧ (∀ v, t.eq = some v → gteFailB t m = false → lteFailB t m = false →
        gtFailB t m = false → ltFailB t m = false → m ≠ v →
        validate_threshold t m
          = (false, some ("Not equal to the value of " ++ toString v)))
    ∧ (gteFailB t m = false → lteFailB t m = false → gtFailB t m = false →
        ltFailB t m = false → eqFailB t m = false →
        validate_threshold t m = (true, none)) := by
  intro t m
  refine ⟨?_, ?_, ?_, ?_, ?_, ?_⟩
  · intro v hv hlt
    rw [validate_threshold, hv,
      checkItems_step_fail _ _ _ _ ("Less than threshold value of " ++ toString v)
        (by simp [checkCondition, hlt])]
  · intro v hv h1 hgt
    rw [validate_threshold, checkItems_step_none _ _ _ _ (gte_cond_none t m h1), hv,
      checkItems_step_fail _ _ _ _ ("Greater than threshold value of " ++ toString v)
        (by simp [checkCondition, hgt])]
  · intro v hv h1 h2 hle
    rw [validate_threshold, checkItems_step_none _ _ _ _ (gte_cond_none t m h1),
      checkItems_step_none _ _ _ _ (lte_cond_none t m h2), hv,
      checkItems_step_fail _ _ _ _ ("Less than or equal to threshold value of " ++ toString v)
        (by simp [checkCondition, hle])]
  · intro v hv h1 h2 h3 hge
    rw [validate_threshold, checkItems_step_none _ _ _ _ (gte_cond_none t m h1),
      checkItems_step_none _ _ _ _ (lte_cond_none t m h2),
      checkItems_step_none _ _ _ _ (gt_cond_none t m h3), hv,
      checkItems_step_fail _ _ _ _ ("Greater than or equal to threshold value of " ++ toString v)
        (by simp [checkCondition, hge])]
  · intro v hv h1 h2 h3 h4 hne
    rw [validate_threshold, checkItems_step_none _ _ _ _ (gte_cond_none t m h1),
      checkItems_step_none _ _ _ _ (lte_cond_none t m h2),
      checkItems_step_none _ _ _ _ (gt_cond_none t m h3),
      checkItems_step_none _ _ _ _ (lt_cond_none t m h4), hv,
      checkItems_step_fail _ _ _ _ ("Not equal to the value of " ++ toString v)
        (by simp [checkCondition, hne])]
  · intro h1 h2 h3 h4 h5
    rw [validate_threshold, checkItems_step_none _ _ _ _ (gte_cond_none t m h1),
      checkItems_step_none _ _ _ _ (lte_cond_none t m h2),
      checkItems_step_none _ _ _ _ (gt_cond_none t m h3),
      checkItems_step_none _ _ _ _ (lt_cond_none t m h4),
      checkItems_step_none _ _ _ _ (eq_cond_none t m h5)]
    rfl

/-- Witness for C2 on the spec's tie-break threshold `{GTE 10, LTE 20}`:
25 fails the LTE bound with its reason (GTE having passed first), and
the boundary value 10 passes outright. -/
theorem validate_threshold_order_semantics_app :
    validate_threshold thBand 25
      = (false, some ("Greater than threshold value of " ++ toString (20 : Int)))
  ∧ validate_threshold thBand 10 = (true, none) := by
  constructor
  · exact (validate_threshold_order_semantics thBand 25).2.1 20 rfl
      (by decide) (by decide)
  · exact (validate_threshold_order_semantics thBand 10).2.2.2.2.2
      (by decide) (by decide) (by decide) (by decide) (by decide)

/-- Spec definition for the amended C4 claim: ordered segments with
`data_source_name` appended whenever non-null (even when empty),
`dataset_name` and `field_name` only when non-null and non-empty, the
function tag always, and `validation_name` only when non-empty. -/
def identitySegmentsAmended (validation_function : ValidationFunction)
    (validation_name : String) (data_source_name : Option String)
    (dataset_name : Option String) (field_name : Option String) : List String :=
  data_source_name.toList
  ++ (dataset_name.filter (fun s => s != "")).toList
  ++ (field_name.filter (fun s => s != "")).toList
  ++ [validation_function.value]
  ++ (validation_name :: []).filter (fun s => s != "")

/-- C4 counterexample: an empty (non-null) data source name is NOT
skipped — it contributes an empty leading segment, so the result is
".count.check1" rather than the "count.check1" the claim requires. -/
theorem generate_identity_empty_source_cex :
    ValidationIdentity.generate_identity fnCount "check1" (some "") none none
      = ".count.check1"
  ∧ ".count.check1" ≠ "count.check1" :=
  ⟨rfl, by decide⟩

/-- Filtering a present option on non-emptiness keeps exactly the
non-empty strings. -/
theorem optFilter_toList (s : String) :
    ((some s).filter (fun x => x != "")).toList
      = if s = "" then [] else [s] := by
  by_cases h : s = "" <;> simp [Option.filter, h]

/-- Filtering a singleton list on non-emptiness keeps exactly the
non-empty strings. -/
theorem singletonFilter (s : String) :
    (s :: []).filter (fun x => x != "") = if s = "" then [] else [s] := by
  by_cases h : s = "" <;> simp [h]

/-- C4 amended: the deriver joins, in the fixed order, data_source_name
(whenever non-null, even when empty), then dataset_name and field_name
(only when non-empty), the function tag, and validation_name (only when
non-empty); the spec's example "warehouse.count.check1" holds. -/
theorem generate_identity_amended_segments :
    (∀ (fn : ValidationFunction) (nm : String) (ds dsn fld : Option String),
      ValidationIdentity.generate_identity fn nm ds dsn fld
        = String.intercalate "." (identitySegmentsAmended fn nm ds dsn fld))
  ∧ ValidationIdentity.generate_identity fnCount "check1" (some "warehouse") none none
      = "warehouse.count.check1" := by
  constructor
  · intro fn nm ds dsn fld
    rcases ds with _ | a <;> rcases dsn with _ | b <;> rcases fld with _ | c <;>
      simp [ValidationIdentity.generate_identity, identitySegmentsAmended,
        optFilter_toList, singletonFilter, Option.filter] <;>
      split_ifs <;> simp
  · rfl

/-- C6: at construction, a non-empty `where` is parsed as JSON under the
search dialect, kept opaque (with `values` retained) under SQL, and both
are left unset — without failing — under an unrecognized dialect; and
evaluation never re-reads the configuration's `where`, so the
interpretation is never re-done per call. -/
theorem dialect_gating_at_construction :
    ∀ (nm : String) (cfg : ValidationConfig) (ds : DataSource) (dsn : String)
      (fld : Option String) (w : String) (vs : List String),
      cfg.whereExpr = some w → w ≠ "" → cfg.values = some vs → vs ≠ [] →
      (ds.language_support = .DSL_ES →
        ∀ j, json_loads w = .ok j →
          ∃ v, Validation.init nm cfg ds dsn fld = .ok v
            ∧ v.where_filter = some (.dsl j))
    ∧ (ds.language_support = .SQL →
        ∃ v, Validation.init nm cfg ds dsn fld = .ok v
          ∧ v.where_filter = some (.sql w) ∧ v.values = some vs)
    ∧ (ds.language_support = .DSL_OTHER →
        ∃ v, Validation.init nm cfg ds dsn fld = .ok v
          ∧ v.where_filter = none ∧ v.values = none)
    ∧ (∀ (v : Validation) (w2 : Option String) (hook : Except String Int) (now : Nat),
        ((({ v with validation_config :=
              { v.validation_config with whereExpr := w2 } } : Validation).get_validation_info
            hook now).result)
          = (v.get_validation_info hook now).result
      ∧ ((({ v with validation_config :=
              { v.validation_config with whereExpr := w2 } } : Validation).get_validation_info
            hook now).diagnostics)
          = (v.get_validation_info hook now).diagnostics) := by
  intro nm cfg ds dsn fld w vs hwe hw hvals hvs
  refine ⟨?_, ?_, ?_, ?_⟩
  · intro hds j hj
    simp only [Validation.init, hwe, hds, hj, hvals, if_neg hw]
    exact ⟨_, rfl, rfl⟩
  · intro hds
    simp only [Validation.init, hwe, hds, hvals, if_neg hw, if_neg hvs]
    exact ⟨_, rfl, rfl, rfl⟩
  · intro hds
    simp only [Validation.init, hwe, hds, hvals, if_neg hw, if_neg hvs]
    exact ⟨_, rfl, rfl, rfl⟩
  · intro v w2 hook now
    obtain ⟨vn, vcfg, vds, vdsn, vfld, vq, vth, vwf, vvs, vrx⟩ := v
    obtain ⟨cq, cth, cwe, cvs, crx, cfn⟩ := vcfg
    cases hook <;> exact ⟨rfl, rfl⟩

/-- C9 (implicit): under the search dialect a non-empty `where` string
that is not valid JSON makes the constructor itself fail — the parse is
eager and the failure propagates out of `__init__`. -/
theorem es_where_parse_failure_propagates :
    ∀ (nm : String) (cfg : ValidationConfig) (ds : DataSource) (dsn : String)
      (fld : Option String) (w e : String),
      ds.language_support = .DSL_ES → cfg.whereExpr = some w → w ≠ "" →
      json_loads w = .error e →
      Validation.init nm cfg ds dsn fld = .error e := by
  intro nm cfg ds dsn fld w e hds hwe hw hj
  simp [Validation.init, hwe, hw, hds, hj]

/-- Witness for C9: the non-JSON `where` string consisting of a lone
opening brace makes construction on a search-dialect source fail. -/
theorem es_where_parse_failure_propagates_app :
    Validation.init "n" cfgBadWhere dsEs "d" none
      = .error "Expecting property name" :=
  es_where_parse_failure_propagates "n" cfgBadWhere dsEs "d" none "\x7b"
    "Expecting property name" rfl rfl (by decide) rfl

/-- A sample configuration whose `where` string is a valid JSON object. -/
def cfgJsonWhere : ValidationConfig :=
  ⟨none, none, some "\x7b\"a\": 1\x7d", some ["a"], none, fnCount⟩

/-- Witness for C6 at concrete data sources of each dialect: SQL keeps
the opaque string and the values, an unrecognized dialect leaves both
unset without failing, and the search dialect stores the parsed tree. -/
theorem dialect_gating_at_construction_app :
    (∃ v, Validation.init "n" cfgWhere dsSql "d" none = .ok v
      ∧ v.where_filter = some (.sql "col > 1") ∧ v.values = some ["a"])
  ∧ (∃ v, Validation.init "n" cfgWhere dsOther "d" none = .ok v
      ∧ v.where_filter = none ∧ v.values = none)
  ∧ (∃ v, Validation.init "n" cfgJsonWhere dsEs "d" none = .ok v
      ∧ v.where_filter = some (.dsl (.obj [("a", .num 1)]))) := by
  have h1 := dialect_gating_at_construction "n" cfgWhere dsSql "d" none
    "col > 1" ["a"] rfl (by decide) rfl (by decide)
  have h2 := dialect_gating_at_construction "n" cfgWhere dsOther "d" none
    "col > 1" ["a"] rfl (by decide) rfl (by decide)
  have h3 := dialect_gating_at_construction "n" cfgJsonWhere dsEs "d" none
    "\x7b\"a\": 1\x7d" ["a"] rfl (by decide) rfl (by decide)
  exact ⟨h1.2.1 rfl, h2.2.2.1 rfl, h3.1 rfl (.obj [("a", .num 1)]) rfl⟩
